import Mathlib

/-
Verification of the fluence-map analysis engine (irrad_control/analysis/fluence.py).

The numeric pipeline (Gaussian kernel deposition, transit times, row/wait
integration, orchestration) is embedded over the real numbers; machine floats
are modelled as exact reals.  Arrays are lists; the two fluence grids, which
the original mutates in place, are modelled as functions `ℕ → ℕ → ℝ` threaded
through the computation.  Fallible code returns `Except FluenceError`.
The region extractor is pure rational/index arithmetic and is embedded over ℚ
so that it is fully executable.
-/

namespace IrradControl

/-- Error taxonomy of the analysis code.  `emptySampleArray` models the
`ValueError` numpy's `interp` raises when the sample-point array is empty. -/
inductive FluenceError where
  | invalidParameter
  | consistencyError
  | missingInput
  | emptySampleArray
deriving DecidableEq

/-- One beam-current sample (row of the beam data table). -/
structure BeamSample where
  timestamp : ℝ
  beam_current : ℝ
  beam_current_error : ℝ

instance : Inhabited BeamSample := ⟨⟨0, 0, 0⟩⟩

/-- One row record of the scan data table. -/
structure RowRecord where
  row_start_x : ℝ
  row_start_y : ℝ
  row_start_timestamp : ℝ
  row_stop_timestamp : ℝ
  row_scan_speed : ℝ
  row_scan_accel : ℝ

instance : Inhabited RowRecord := ⟨⟨0, 0, 0, 0, 0, 0⟩⟩

/-- Session metadata (first row of the irrad data table), generic in the
numeric type so the same record serves the ℝ pipeline and the ℚ extractor. -/
structure IrradData (α : Type) where
  n_rows : ℕ
  beam_fwhm_x : α
  beam_fwhm_y : α
  scan_area_start_x : α
  scan_area_start_y : α
  scan_area_stop_x : α
  scan_area_stop_y : α
  dut_rect_start_x : α
  dut_rect_start_y : α
  dut_rect_stop_x : α
  dut_rect_stop_y : α

/-- `np.searchsorted(xs, v, side='left')` on a sorted array: the first index
whose element is ≥ `v`. -/
def searchsortedL {α : Type} [LinearOrder α] : List α → α → ℕ
  | [], _ => 0
  | x :: xs, v => if x < v then searchsortedL xs v + 1 else 0

/-- `np.searchsorted(xs, v, side='right')` on a sorted array: the first index
whose element is > `v`. -/
def searchsortedR {α : Type} [LinearOrder α] : List α → α → ℕ
  | [], _ => 0
  | x :: xs, v => if x ≤ v then searchsortedR xs v + 1 else 0

/-- `np.linspace(a, b, num)`. -/
def linspace {α : Type} [Field α] (a b : α) (num : ℕ) : List α :=
  (List.range num).map fun (i : ℕ) => a + (b - a) * (i : α) / ((num - 1 : ℕ) : α)

/-- Bin centers from bin edges: `0.5 * (edges[:-1] + edges[1:])`. -/
def midpoints {α : Type} [Field α] (edges : List α) : List α :=
  (edges.zip edges.tail).map fun p => (p.1 + p.2) / 2

/-- Bin sizes from bin edges: `edges[1:] - edges[:-1]`. -/
def binSizes {α : Type} [Field α] (edges : List α) : List α :=
  (edges.zip edges.tail).map fun p => p.2 - p.1

/-! ## RegionExtractor (`extract_dut_map`), embedded over ℚ -/

/-- The lambda `get_dut_rect` of `extract_dut_map`: turn a centered
`(x_width, y_width)` rectangle into `(x_min, y_min, x_max, y_max)`. -/
def get_dut_rect (sax say : ℚ) (dr : List ℚ) : List ℚ :=
  [(sax - dr.getD 0 0) / 2, (say - dr.getD 1 0) / 2,
   (sax + dr.getD 0 0) / 2, (say + dr.getD 1 0) / 2]

/-- The rectangle-resolution branching of `extract_dut_map` (lines 135-162):
missing-input check, priority of `irrad_data`, centered-rectangle transform
and arity checks.  Note that in the source the arity check for the
non-center-symmetric mode runs only after `get_dut_rect` has already replaced
the rectangle by a 4-element one, so it can never fire; it is reproduced
verbatim here. -/
def dut_rect_resolved (sax say : ℚ) (irrad_data : Option (IrradData ℚ))
    (dut_rectangle : Option (List ℚ)) (center_symm : Bool) :
    Except FluenceError (List ℚ) :=
  match irrad_data, dut_rectangle with
  | none, none => .error .missingInput
  | some ir, _ =>
      .ok [ir.dut_rect_start_x - ir.scan_area_start_x,
           ir.dut_rect_start_y - ir.scan_area_start_y,
           ir.dut_rect_stop_x - ir.scan_area_start_x,
           ir.dut_rect_stop_y - ir.scan_area_start_y]
  | none, some dr =>
      if center_symm ∧ dr.length ≠ 2 then .error .invalidParameter
      else
        let t := get_dut_rect sax say dr
        if ¬center_symm ∧ t.length ≠ 4 then .error .invalidParameter
        else .ok t

/-- `extract_dut_map`: crop the DUT region out of the fluence map. -/
def extract_dut_map (fluence_map : List (List ℚ))
    (map_bin_centers_x map_bin_centers_y : List ℚ)
    (irrad_data : Option (IrradData ℚ)) (dut_rectangle : Option (List ℚ))
    (center_symm : Bool) :
    Except FluenceError (List (List ℚ) × List ℚ × List ℚ) := do
  let scan_area_x := map_bin_centers_x.getD (map_bin_centers_x.length - 1) 0 +
      (map_bin_centers_x.getD 1 0 - map_bin_centers_x.getD 0 0) / 2
  let scan_area_y := map_bin_centers_y.getD (map_bin_centers_y.length - 1) 0 +
      (map_bin_centers_y.getD 1 0 - map_bin_centers_y.getD 0 0) / 2
  let map_bin_edges_x := linspace 0 scan_area_x (map_bin_centers_x.length + 1)
  let map_bin_edges_y := linspace 0 scan_area_y (map_bin_centers_y.length + 1)
  let r ← dut_rect_resolved scan_area_x scan_area_y irrad_data dut_rectangle center_symm
  let x_min_idx := searchsortedL map_bin_edges_x (r.getD 0 0)
  let x_max_idx := searchsortedR map_bin_edges_x (r.getD (r.length - 2) 0)
  let y_min_idx := searchsortedL map_bin_edges_y (r.getD 1 0)
  let y_max_idx := searchsortedR map_bin_edges_y (r.getD (r.length - 1) 0)
  pure (((fluence_map.drop y_min_idx).take (y_max_idx - y_min_idx)).map
          (fun row => (row.drop x_min_idx).take (x_max_idx - x_min_idx)),
        (map_bin_centers_x.drop x_min_idx).take (x_max_idx - x_min_idx),
        (map_bin_centers_y.drop y_min_idx).take (y_max_idx - y_min_idx))

/-! ## GaussianBeamModel -/

noncomputable def gauss_2d_norm (amplitude sigma_x sigma_y : ℝ) : ℝ :=
  amplitude / (2 * Real.pi * sigma_x * sigma_y)

noncomputable def gauss_2d_volume (amplitude sigma_x sigma_y : ℝ) : ℝ :=
  2 * Real.pi * amplitude * sigma_x * sigma_y

noncomputable def gauss_2d_pdf (x y mu_x mu_y sigma_x sigma_y amplitude : ℝ)
    (normalized : Bool) : ℝ :=
  (if normalized then amplitude else gauss_2d_norm amplitude sigma_x sigma_y) *
    Real.exp (-(1 / 2) * (((x - mu_x) / sigma_x) ^ 2 + ((y - mu_y) / sigma_y) ^ 2))

/-! ## KernelDepositor (`apply_gauss_2d_kernel`) -/

/-- The two in-place mutated fluence grids are modelled as total functions;
their shape is carried by the bin-center arrays (in `generate_fluence_map` the
grids are allocated with shape `(len bin_centers_y, len bin_centers_x)`). -/
def Grid : Type := ℕ → ℕ → ℝ

noncomputable def zeroGrid : Grid := fun _ _ => 0

/-- The double deposition loop of `apply_gauss_2d_kernel` (after its
parameter check): every cell within `skip_sigmas`·σ of the mean on both axes
gets the pdf added — amplitude on the value grid, squared amplitude error on
the error grid; all other cells are untouched. -/
noncomputable def gauss_kernel_add (map_2d map_2d_error : Grid)
    (amplitude amplitude_error : ℝ) (bin_centers_x bin_centers_y : List ℝ)
    (mu_x mu_y sigma_x sigma_y : ℝ) (normalized : Bool) (skip_sigmas : ℝ) :
    Grid × Grid :=
  (fun j i => map_2d j i +
      if j < bin_centers_y.length ∧ i < bin_centers_x.length ∧
          |bin_centers_y.getD j 0 - mu_y| ≤ skip_sigmas * sigma_y ∧
          |bin_centers_x.getD i 0 - mu_x| ≤ skip_sigmas * sigma_x then
        gauss_2d_pdf (bin_centers_x.getD i 0) (bin_centers_y.getD j 0)
          mu_x mu_y sigma_x sigma_y amplitude normalized
      else 0,
   fun j i => map_2d_error j i +
      if j < bin_centers_y.length ∧ i < bin_centers_x.length ∧
          |bin_centers_y.getD j 0 - mu_y| ≤ skip_sigmas * sigma_y ∧
          |bin_centers_x.getD i 0 - mu_x| ≤ skip_sigmas * sigma_x then
        gauss_2d_pdf (bin_centers_x.getD i 0) (bin_centers_y.getD j 0)
          mu_x mu_y sigma_x sigma_y (amplitude_error ^ 2) normalized
      else 0)

noncomputable def apply_gauss_2d_kernel (map_2d map_2d_error : Grid)
    (amplitude amplitude_error : ℝ) (bin_centers_x bin_centers_y : List ℝ)
    (mu_x mu_y sigma_x sigma_y : ℝ) (normalized : Bool) (skip_sigmas : ℝ) :
    Except FluenceError (Grid × Grid) :=
  if skip_sigmas < 3 then .error .invalidParameter
  else .ok (gauss_kernel_add map_2d map_2d_error amplitude amplitude_error
    bin_centers_x bin_centers_y mu_x mu_y sigma_x sigma_y normalized skip_sigmas)

/-! ## TransitTimeModel (`_calc_bin_transit_times`) -/

/-- One acceleration/deceleration bin time:
`t = (sqrt(2·s·a + v0²) − v0) / a`. -/
noncomputable def rampTime (scan_accel bin_size v0 : ℝ) : ℝ :=
  (Real.sqrt (2 * bin_size * scan_accel + v0 ^ 2) - v0) / scan_accel

/-- Functional model of the numpy slice assignment
`xs[lo:hi] = f(lo), …, f(hi-1)` (with `0 ≤ lo ≤ hi` already resolved). -/
def sliceAssign (xs : List ℝ) (lo hi : ℕ) (f : ℕ → ℝ) : List ℝ :=
  (List.range xs.length).map fun i => if lo ≤ i ∧ i < hi then f i else xs.getD i 0

/-- One iteration of the ramp loop of `_calc_bin_transit_times`: write the
bin time of leading bin `i` and of trailing bin `n-1-i` (both computed with
the current speed), then update the current speed from the leading bin. -/
noncomputable def rampFoldStep (scan_accel : ℝ) (bin_sizes : List ℝ) (n : ℕ)
    (st : List ℝ × ℝ) (i : ℕ) : List ℝ × ℝ :=
  let t := rampTime scan_accel (bin_sizes.getD i 0) st.2
  let t_rev := rampTime scan_accel (bin_sizes.getD (n - 1 - i) 0) st.2
  ((st.1.set i t).set (n - 1 - i) t_rev, st.2 + scan_accel * t)

/-- `_calc_bin_transit_times`.  `bin_transit_times` is the caller-owned
buffer the original fills in place; entries it does not write keep their old
values.  The python slice `[idx:-idx]` is empty when `idx = 0` (`-0 == 0`),
which the `if idx = 0` mirror reproduces. -/
noncomputable def _calc_bin_transit_times (bin_transit_times bin_edges : List ℝ)
    (scan_speed scan_accel : ℝ) : List ℝ :=
  let bin_sizes := binSizes bin_edges
  let n := bin_sizes.length
  let de_accel_time := scan_speed / scan_accel
  let de_accel_dist := scan_accel / 2 * de_accel_time ^ 2
  let idx := searchsortedL bin_edges de_accel_dist
  let base := sliceAssign bin_transit_times idx (if idx = 0 then 0 else n - idx)
      (fun i => bin_sizes.getD i 0 / scan_speed)
  ((List.range idx).foldl (rampFoldStep scan_accel bin_sizes n) (base, 0)).1

/-- Cumulative `current_speed` after `i` iterations of the ramp loop. -/
noncomputable def rampSpeed (scan_accel : ℝ) (bin_sizes : List ℝ) : ℕ → ℝ
  | 0 => 0
  | i + 1 => rampSpeed scan_accel bin_sizes i +
      scan_accel * rampTime scan_accel (bin_sizes.getD i 0)
        (rampSpeed scan_accel bin_sizes i)

/-! ## Row and wait integration -/

/-- Modelled from the spec: the constant `elementary_charge` is imported from
`irrad_control.analysis.constants`, a module not contained in the provided
sources; the spec (§4.4e) gives e = 1.602176634e-19 C. -/
noncomputable def elementary_charge : ℝ := 1.602176634e-19

/-- `np.std` (population standard deviation). -/
noncomputable def npStd (xs : List ℝ) : ℝ :=
  Real.sqrt ((xs.map fun x => (x - xs.sum / xs.length) ^ 2).sum / xs.length)

/-- `np.cumsum`. -/
noncomputable def cumsum (xs : List ℝ) : List ℝ :=
  (xs.scanl (fun a b => a + b) 0).tail

/-- `np.interp` at one point: flat extrapolation outside `xp`, linear
interpolation between neighbours inside (assuming `xp` sorted non-empty). -/
noncomputable def interpAt (xp fp : List ℝ) (t : ℝ) : ℝ :=
  let k := searchsortedR xp t
  if k = 0 then fp.getD 0 0
  else if k = xp.length then fp.getD (xp.length - 1) 0
  else fp.getD (k - 1) 0 + (fp.getD k 0 - fp.getD (k - 1) 0) *
      (t - xp.getD (k - 1) 0) / (xp.getD k 0 - xp.getD (k - 1) 0)

/-- `np.interp` over a list of query points; numpy raises `ValueError` when
the array of sample points is empty. -/
noncomputable def npInterp (ts xp fp : List ℝ) : Except FluenceError (List ℝ) :=
  if xp.length = 0 then .error .emptySampleArray else .ok (ts.map (interpAt xp fp))

/-- The geometry arguments `generate_fluence_map` passes unchanged to every
row/wait pass. -/
structure ScanEnv where
  map_bin_edges_x : List ℝ
  map_bin_centers_x : List ℝ
  map_bin_centers_y : List ℝ
  beam_sigma_x : ℝ
  beam_sigma_y : ℝ
  scan_y_offset : ℝ
  scan_area_start_x : ℝ
  scan_area_stop_x : ℝ

/-- The scan-direction check of `_process_row_scan` (lines 518-527): natural
bin-center order when the row starts within the ±0.5 mm window around the
scan-area start edge, reversed order within the window around the stop edge,
`ConsistencyError` otherwise. -/
noncomputable def chooseDirection (env : ScanEnv) (row_start_x : ℝ) :
    Except FluenceError (List ℝ) :=
  if env.scan_area_start_x - 0.5 < row_start_x ∧
      row_start_x < env.scan_area_start_x + 0.5 then
    .ok env.map_bin_centers_x
  else if env.scan_area_stop_x - 0.5 < row_start_x ∧
      row_start_x < env.scan_area_stop_x + 0.5 then
    .ok env.map_bin_centers_x.reverse
  else .error .consistencyError

/-- The deposition loop of `_process_row_scan`: one kernel application per
bin, centered at the (possibly reversed) bin center. -/
noncomputable def row_scan_deposit (env : ScanEnv) (fl fe : Grid)
    (ions ion_errors x_bin_centers : List ℝ) (mu_y : ℝ) : Grid × Grid :=
  (List.range ions.length).foldl
    (fun g i => gauss_kernel_add g.1 g.2 (ions.getD i 0) (ion_errors.getD i 0)
        env.map_bin_centers_x env.map_bin_centers_y (x_bin_centers.getD i 0) mu_y
        env.beam_sigma_x env.beam_sigma_y false 6)
    (fl, fe)

/-- `_process_row_scan`.  Returns the updated grids together with the updated
row-bin transit-time buffer (mutated in place in the original). -/
noncomputable def _process_row_scan (row : RowRecord)
    (row_beam_data : List BeamSample) (fl fe : Grid)
    (row_bin_transit_times : List ℝ) (env : ScanEnv) :
    Except FluenceError ((Grid × Grid) × List ℝ) := do
  let tts := _calc_bin_transit_times row_bin_transit_times env.map_bin_edges_x
      row.row_scan_speed row.row_scan_accel
  let row_start_overhead :=
      (row.row_stop_timestamp - row.row_start_timestamp - tts.sum) / 2
  let actual_row_start_timestamp := row.row_start_timestamp + row_start_overhead
  let row_bin_center_timestamps := (List.zip (cumsum tts) tts).map
      fun p => actual_row_start_timestamp + p.1 - p.2 / 2
  let xp := row_beam_data.map (·.timestamp)
  let row_bin_center_currents ←
      npInterp row_bin_center_timestamps xp (row_beam_data.map (·.beam_current))
  let row_bin_center_current_errors ←
      npInterp row_bin_center_timestamps xp (row_beam_data.map (·.beam_current_error))
  let row_bin_center_ions := (List.zip row_bin_center_currents tts).map
      fun p => p.1 * p.2 / elementary_charge
  let raw_ion_errors := (List.zip row_bin_center_current_errors tts).map
      fun p => p.1 * p.2 / elementary_charge
  let row_bin_center_ion_errors := raw_ion_errors.map
      fun x => Real.sqrt (x ^ 2 + npStd row_bin_center_ions ^ 2)
  let mu_y := row.row_start_y - env.scan_y_offset
  let x_bin_centers ← chooseDirection env row.row_start_x
  pure (row_scan_deposit env fl fe row_bin_center_ions row_bin_center_ion_errors
      x_bin_centers mu_y, tts)

/-- One iteration of the wait loop of `_process_row_wait`: integrate the
`i`-th sample's current over the interval to the next sample and deposit. -/
noncomputable def wait_deposit_step (env : ScanEnv)
    (wait_beam_data : List BeamSample) (wait_ions_std wait_mu_x wait_mu_y : ℝ)
    (g : Grid × Grid) (i : ℕ) : Grid × Grid :=
  let wait_current := (wait_beam_data.getD i default).beam_current
  let wait_current_error := (wait_beam_data.getD i default).beam_current_error
  let wait_interval := (wait_beam_data.getD (i + 1) default).timestamp -
      (wait_beam_data.getD i default).timestamp
  let wait_ions := wait_current * wait_interval / elementary_charge
  let wait_ions_error := Real.sqrt
      ((wait_current_error * wait_interval / elementary_charge) ^ 2 + wait_ions_std ^ 2)
  gauss_kernel_add g.1 g.2 wait_ions wait_ions_error
    env.map_bin_centers_x env.map_bin_centers_y wait_mu_x wait_mu_y
    env.beam_sigma_x env.beam_sigma_y false 6

/-- `_process_row_wait`. -/
noncomputable def _process_row_wait (row : RowRecord)
    (wait_beam_data : List BeamSample) (fl fe : Grid) (env : ScanEnv) :
    Except FluenceError (Grid × Grid) := do
  let wait_mu_y := row.row_start_y - env.scan_y_offset
  let wait_mu_x ←
    if env.scan_area_start_x - 0.5 < row.row_start_x ∧
        row.row_start_x < env.scan_area_start_x + 0.5 then
      Except.ok (env.map_bin_edges_x.getD 0 0)
    else if env.scan_area_stop_x - 0.5 < row.row_start_x ∧
        row.row_start_x < env.scan_area_stop_x + 0.5 then
      Except.ok (env.map_bin_edges_x.getD (env.map_bin_edges_x.length - 1) 0)
    else Except.error FluenceError.consistencyError
  let wait_ions_std := npStd (wait_beam_data.map (·.beam_current))
  pure ((List.range (wait_beam_data.length - 1)).foldl
    (wait_deposit_step env wait_beam_data wait_ions_std wait_mu_x wait_mu_y)
    (fl, fe))

/-! ## ScanReconstructor (`_process_row` / `generate_fluence_map`) -/

/-- Mutable state of one reconstruction: the two grids, the reused transit
time buffer and the amortized cursor into the beam data. -/
structure RecoState where
  fl : Grid
  fe : Grid
  ttbuf : List ℝ
  cursor : ℕ

/-- Index limits of the beam samples of the current row within the beam-data
view that starts at the cursor (lines 588-592). -/
noncomputable def rowStartIdxOf (beam_data : List BeamSample) (cursor : ℕ)
    (row : RowRecord) : ℕ :=
  searchsortedL ((beam_data.drop cursor).map (·.timestamp)) row.row_start_timestamp

noncomputable def rowStopIdxOf (beam_data : List BeamSample) (cursor : ℕ)
    (row : RowRecord) : ℕ :=
  searchsortedR ((beam_data.drop cursor).map (·.timestamp)) row.row_stop_timestamp

/-- The wait window of a row: samples of the current view strictly before the
row-start index. -/
noncomputable def waitSliceOf (beam_data : List BeamSample) (cursor : ℕ)
    (row : RowRecord) : List BeamSample :=
  (beam_data.drop cursor).take (rowStartIdxOf beam_data cursor row)

/-- The row window of a row: samples of the current view in
`[row_start_idx, row_stop_idx)`. -/
noncomputable def rowSliceOf (beam_data : List BeamSample) (cursor : ℕ)
    (row : RowRecord) : List BeamSample :=
  ((beam_data.drop cursor).drop (rowStartIdxOf beam_data cursor row)).take
    (rowStopIdxOf beam_data cursor row - rowStartIdxOf beam_data cursor row)

/-- `_process_row`: optional wait pass, then the row-scan pass, then cursor
advance by `row_stop_idx`. -/
noncomputable def _process_row (row : RowRecord) (beam_data : List BeamSample)
    (st : RecoState) (env : ScanEnv) : Except FluenceError RecoState := do
  let row_beam_data := rowSliceOf beam_data st.cursor row
  let grids ←
    if 0 < st.cursor then
      let wait_beam_data := waitSliceOf beam_data st.cursor row
      if 0 < wait_beam_data.length then
        _process_row_wait row wait_beam_data st.fl st.fe env
      else pure (st.fl, st.fe)
    else pure (st.fl, st.fe)
  let res ← _process_row_scan row row_beam_data grids.1 grids.2 st.ttbuf env
  pure ⟨res.1.1, res.1.2, res.2, st.cursor + rowStopIdxOf beam_data st.cursor row⟩

/-- The row loop of `generate_fluence_map`. -/
noncomputable def processRows (beam_data : List BeamSample) (env : ScanEnv) :
    List RowRecord → RecoState → Except FluenceError RecoState
  | [], st => .ok st
  | r :: rs, st => do processRows beam_data env rs (← _process_row r beam_data st env)

/-- The geometry `generate_fluence_map` derives from the irrad data and the
requested binning (numpy shape convention: `bins = (Y, X)`). -/
noncomputable def envOf (irrad_data : IrradData ℝ) (bins : ℕ × ℕ) : ScanEnv :=
  let map_bin_edges_y := linspace 0
      |irrad_data.scan_area_start_y - irrad_data.scan_area_stop_y| (bins.1 + 1)
  let map_bin_edges_x := linspace 0
      |irrad_data.scan_area_stop_x - irrad_data.scan_area_start_x| (bins.2 + 1)
  ⟨map_bin_edges_x, midpoints map_bin_edges_x, midpoints map_bin_edges_y,
   irrad_data.beam_fwhm_x / 2.3548, irrad_data.beam_fwhm_y / 2.3548,
   irrad_data.scan_area_start_y, irrad_data.scan_area_start_x,
   irrad_data.scan_area_stop_x⟩

/-- Initial reconstruction state: zero-filled grids, zeroed transit-time
buffer, cursor at the start of the beam data. -/
noncomputable def initState (irrad_data : IrradData ℝ) (bins : ℕ × ℕ) : RecoState :=
  ⟨zeroGrid, zeroGrid,
   List.replicate (envOf irrad_data bins).map_bin_centers_x.length 0, 0⟩

/-- `generate_fluence_map`: run the row loop, then finalize exactly once —
square root of the accumulated variance grid, ×100 rescale of both grids
(ions/mm² → ions/cm²) — and return the maps with the bin centers. -/
noncomputable def generate_fluence_map (beam_data : List BeamSample)
    (scan_data : List RowRecord) (irrad_data : IrradData ℝ) (bins : ℕ × ℕ) :
    Except FluenceError (Grid × Grid × List ℝ × List ℝ) := do
  let env := envOf irrad_data bins
  let res ← processRows beam_data env scan_data (initState irrad_data bins)
  pure (fun j i => 100 * res.fl j i, fun j i => 100 * Real.sqrt (res.fe j i),
        env.map_bin_centers_x, env.map_bin_centers_y)

/-! ## Helper lemmas -/

theorem npInterp_ok (ts xp fp : List ℝ) (h : xp ≠ []) :
    npInterp ts xp fp = .ok (ts.map (interpAt xp fp)) := by
  unfold npInterp
  rw [if_neg (by simpa using h)]

theorem bindOk {ε α β : Type} (a : α) (f : α → Except ε β) :
    (Except.ok a : Except ε α) >>= f = f a := rfl

theorem bindError {ε α β : Type} (e : ε) (f : α → Except ε β) :
    (Except.error e : Except ε α) >>= f = Except.error e := rfl

theorem searchsortedR_getD_le {α : Type} [LinearOrder α] (xs : List α) (v d : α) :
    ∀ j, j < searchsortedR xs v → xs.getD j d ≤ v := by
  induction xs with
  | nil => intro j h; simp [searchsortedR] at h
  | cons x xs ih =>
      intro j h
      by_cases hx : x ≤ v
      · rw [searchsortedR, if_pos hx] at h
        cases j with
        | zero => simpa using hx
        | succ j => simpa using ih j (by omega)
      · rw [searchsortedR, if_neg hx] at h
        omega
theorem le_getD_searchsortedL {α : Type} [LinearOrder α] (xs : List α) (v d : α) :
    searchsortedL xs v < xs.length → v ≤ xs.getD (searchsortedL xs v) d := by
  induction xs with
  | nil => intro h; simp [searchsortedL] at h
  | cons x xs ih =>
      intro h
      by_cases hx : x < v
      · rw [searchsortedL, if_pos hx] at h ⊢
        simpa using ih (by simpa using h)
      · rw [searchsortedL, if_neg hx] at h ⊢
        simpa using le_of_not_lt hx
theorem mem_take_drop_getD {α : Type} [Inhabited α] (xs : List α) (lo k : ℕ)
    (c d : α) (h : c ∈ (xs.drop lo).take k) :
    ∃ i, lo ≤ i ∧ i < lo + k ∧ i < xs.length ∧ xs.getD i d = c := by
  obtain ⟨j, hj, hget⟩ := List.getElem_of_mem h
  rw [List.getElem_take, List.getElem_drop] at hget
  rw [List.length_take, List.length_drop] at hj
  refine ⟨lo + j, by omega, by omega, by omega, ?_⟩
  rw [List.getD_eq_getElem?_getD, List.getElem?_eq_getElem (by omega)]
  simpa using hget
theorem linspace_length {α : Type} [Field α] (a b : α) (num : ℕ) :
    (linspace a b num).length = num := by
  simp only [linspace, List.length_map, List.length_range]
theorem linspace_getD {α : Type} [Field α] (a b : α) (num k : ℕ) (hk : k < num)
    (d : α) : (linspace a b num).getD k d = a + (b - a) * k / ((num - 1 : ℕ) : α) := by
  simp only [linspace, List.getD_eq_getElem?_getD, List.getElem?_map]
  rw [List.getElem?_range hk]
  rfl
theorem dut_rect_resolved_length (sax say : ℚ) (ir : Option (IrradData ℚ))
    (dr : Option (List ℚ)) (cs : Bool) (r : List ℚ)
    (h : dut_rect_resolved sax say ir dr cs = .ok r) : r.length = 4 := by
  cases ir with
  | some x =>
      simp only [dut_rect_resolved] at h
      rw [← Except.ok.inj h]
      rfl
  | none =>
      cases dr with
      | none => simp [dut_rect_resolved] at h
      | some dr =>
          simp only [dut_rect_resolved] at h
          split at h
          · simp at h
          · split at h
            · simp at h
            · rw [← Except.ok.inj h]
              rfl

theorem except_bind_ok_iff {ε α β : Type} {m : Except ε α} {f : α → Except ε β}
    {b : β} : m >>= f = .ok b ↔ ∃ a, m = .ok a ∧ f a = .ok b := by
  cases m <;> simp [bindOk, bindError]

theorem except_bind_pure_eq_map {ε α β : Type} (m : Except ε α) (f : α → β) :
    (m >>= fun a => pure (f a)) = m.map f := by
  cases m <;> rfl

/-- A successful row-scan pass implies its beam-sample slice was non-empty
(otherwise `np.interp` raises on the empty sample-point array). -/
theorem process_row_scan_ok_ne_nil (row : RowRecord) (row_beam : List BeamSample)
    (fl fe : Grid) (buf : List ℝ) (env : ScanEnv)
    (res : (Grid × Grid) × List ℝ)
    (h : _process_row_scan row row_beam fl fe buf env = .ok res) : row_beam ≠ [] := by
  intro hnil
  subst hnil
  unfold _process_row_scan npInterp at h
  simp [bindError] at h

/-- A successful `_process_row` strictly advances the cursor: the row slice
must be non-empty (else the interpolation fails), so `row_stop_idx ≥ 1`. -/
theorem process_row_cursor_lt (row : RowRecord) (beam_data : List BeamSample)
    (st st' : RecoState) (env : ScanEnv)
    (h : _process_row row beam_data st env = .ok st') : st.cursor < st'.cursor := by
  have key : ∀ fl fe : Grid,
      (do
        let res ← _process_row_scan row (rowSliceOf beam_data st.cursor row) fl fe st.ttbuf env
        pure (⟨res.1.1, res.1.2, res.2,
          st.cursor + rowStopIdxOf beam_data st.cursor row⟩ : RecoState) :
        Except FluenceError RecoState) = .ok st' →
      st.cursor < st'.cursor := by
    intro fl fe hh
    rw [except_bind_ok_iff] at hh
    obtain ⟨res, hscan, hp⟩ := hh
    have hne := process_row_scan_ok_ne_nil _ _ _ _ _ _ _ hscan
    have hstop : 0 < rowStopIdxOf beam_data st.cursor row := by
      rcases Nat.eq_zero_or_pos (rowStopIdxOf beam_data st.cursor row) with hz | hp2
      · exfalso
        apply hne
        unfold rowSliceOf
        rw [hz]
        simp
      · exact hp2
    cases hp
    simpa using hstop
  unfold _process_row at h
  simp only [bindOk] at h
  split at h
  · split at h
    · rw [except_bind_ok_iff] at h
      obtain ⟨grids, -, h⟩ := h
      exact key grids.1 grids.2 h
    · exact key _ _ h
  · exact key _ _ h

/-- On success the cursor never decreases across the row loop. -/
theorem processRows_cursor_le (beam_data : List BeamSample) (env : ScanEnv) :
    ∀ (rs : List RowRecord) (st st' : RecoState),
      processRows beam_data env rs st = .ok st' → st.cursor ≤ st'.cursor := by
  intro rs
  induction rs with
  | nil =>
      intro st st' h
      cases h
      exact le_refl _
  | cons r rs ih =>
      intro st st' h
      unfold processRows at h
      rw [except_bind_ok_iff] at h
      obtain ⟨st1, h1, h2⟩ := h
      exact le_of_lt (lt_of_lt_of_le (process_row_cursor_lt r beam_data st st1 env h1)
        (ih st1 st' h2))

/-- After at least one successfully processed row the cursor is positive. -/
theorem processRows_cursor_pos (beam_data : List BeamSample) (env : ScanEnv)
    (rs : List RowRecord) (hrs : rs ≠ []) (st st' : RecoState)
    (h : processRows beam_data env rs st = .ok st') : 0 < st'.cursor := by
  cases rs with
  | nil => exact absurd rfl hrs
  | cons r rs =>
      unfold processRows at h
      rw [except_bind_ok_iff] at h
      obtain ⟨st1, h1, h2⟩ := h
      have := process_row_cursor_lt r beam_data st st1 env h1
      have := processRows_cursor_le beam_data env rs st1 st' h2
      omega

theorem getD_set_ne (l : List ℝ) (i j : ℕ) (x : ℝ) (h : i ≠ j) :
    (l.set i x).getD j 0 = l.getD j 0 := by
  simp [List.getD_eq_getElem?_getD, List.getElem?_set_ne h]

theorem getD_set_self (l : List ℝ) (i : ℕ) (x : ℝ) (h : i < l.length) :
    (l.set i x).getD i 0 = x := by
  simp [List.getD_eq_getElem?_getD, List.getElem?_set_self, h]

theorem sliceAssign_length (xs : List ℝ) (lo hi : ℕ) (f : ℕ → ℝ) :
    (sliceAssign xs lo hi f).length = xs.length := by
  simp [sliceAssign]

theorem sliceAssign_getD (xs : List ℝ) (lo hi : ℕ) (f : ℕ → ℝ) (i : ℕ)
    (h : i < xs.length) :
    (sliceAssign xs lo hi f).getD i 0 =
      if lo ≤ i ∧ i < hi then f i else xs.getD i 0 := by
  simp [sliceAssign, List.getD_eq_getElem?_getD, List.getElem?_map, List.getElem?_range, h]

theorem binSizes_length {α : Type} [Field α] (edges : List α) :
    (binSizes edges).length = edges.length - 1 := by
  simp [binSizes]

/-- Characterization of the ramp loop of `_calc_bin_transit_times` after `k`
iterations (while the two ramp regions stay disjoint, `2k ≤ n`): the running
speed is the cumulative `rampSpeed`, leading bins `j < k` hold their ramp
time, trailing bins `j ≥ n - k` hold the mirrored ramp time, and all other
entries still hold the start list's values. -/
theorem rampFold_spec (accel : ℝ) (sizes base : List ℝ) (n : ℕ)
    (hbase : base.length = n) :
    ∀ k, 2 * k ≤ n →
      ((List.range k).foldl (rampFoldStep accel sizes n) (base, 0)).2 =
        rampSpeed accel sizes k ∧
      ((List.range k).foldl (rampFoldStep accel sizes n) (base, 0)).1.length = n ∧
      ∀ j, j < n →
        ((List.range k).foldl (rampFoldStep accel sizes n) (base, 0)).1.getD j 0 =
          if j < k then rampTime accel (sizes.getD j 0) (rampSpeed accel sizes j)
          else if n - k ≤ j then
            rampTime accel (sizes.getD j 0) (rampSpeed accel sizes (n - 1 - j))
          else base.getD j 0 := by
  intro k
  induction k with
  | zero =>
      intro _
      simp only [List.range_zero, List.foldl_nil]
      refine ⟨rfl, hbase, ?_⟩
      intro j hj
      split_ifs <;> first | rfl | omega
  | succ k ih =>
      intro hk
      obtain ⟨ihv, ihl, ihg⟩ := ih (by omega)
      rw [List.range_succ, List.foldl_append, List.foldl_cons, List.foldl_nil]
      refine ⟨?_, ?_, ?_⟩
      · simp only [rampFoldStep]
        rw [ihv]
        rfl
      · simp only [rampFoldStep, List.length_set]
        exact ihl
      · intro j hj
        by_cases hj1 : j = k
        · rw [hj1]
          have hb1 : k < ((List.range k).foldl (rampFoldStep accel sizes n) (base, 0)).1.length := by
            rw [ihl]; omega
          simp only [rampFoldStep]
          rw [getD_set_ne _ _ _ _ (show n - 1 - k ≠ k by omega),
            getD_set_self _ _ _ hb1, ihv, if_pos (show k < k + 1 by omega)]
        · by_cases hj2 : j = n - 1 - k
          · rw [hj2]
            have hb2 : n - 1 - k <
                (((List.range k).foldl (rampFoldStep accel sizes n) (base, 0)).1.set k
                  (rampTime accel (sizes.getD k 0)
                    ((List.range k).foldl (rampFoldStep accel sizes n) (base, 0)).2)).length := by
              simp only [List.length_set]; rw [ihl]; omega
            simp only [rampFoldStep]
            rw [getD_set_self _ _ _ hb2,
              ihv, if_neg (show ¬(n - 1 - k < k + 1) by omega),
              if_pos (show n - (k + 1) ≤ n - 1 - k by omega)]
            have hkk : n - 1 - (n - 1 - k) = k := by omega
            rw [hkk]
          · simp only [rampFoldStep]
            rw [getD_set_ne _ _ _ _ (show n - 1 - k ≠ j by omega),
              getD_set_ne _ _ _ _ (show k ≠ j by omega), ihg j hj]
            split_ifs <;> first | rfl | omega

/-! ## Theorems -/

/-- C4: `apply_gauss_2d_kernel` fails with `InvalidParameter` exactly when
`skip_sigmas < 3`; the parameter check precedes any deposition, so in the
failure case no updated grids are produced at all. -/
theorem C4_kernel_invalid_parameter (m me : Grid) (amp ampErr : ℝ)
    (bcx bcy : List ℝ) (mux muy sx sy : ℝ) (nrm : Bool) (skip_sigmas : ℝ) :
    apply_gauss_2d_kernel m me amp ampErr bcx bcy mux muy sx sy nrm skip_sigmas =
      .error .invalidParameter ↔ skip_sigmas < 3 := by
  unfold apply_gauss_2d_kernel
  split
  · simp_all
  · simp_all

/-- C3: with `skip_sigmas ≥ 3`, `apply_gauss_2d_kernel` (with
`normalized = False`, as in every call of the analysis) succeeds; every cell
whose center is within `skip_sigmas`·σ of the mean on both axes gets the
unnormalized pdf of the amplitude added on the value grid and of the squared
amplitude error on the variance grid, and every cell failing either axis
condition is unchanged in both grids. -/
theorem C3_kernel_deposition (m me : Grid) (amp ampErr : ℝ) (bcx bcy : List ℝ)
    (mux muy sx sy skip_sigmas : ℝ) (h3 : 3 ≤ skip_sigmas) :
    ∃ m' me',
      apply_gauss_2d_kernel m me amp ampErr bcx bcy mux muy sx sy false skip_sigmas =
        .ok (m', me') ∧
      ∀ j i, j < bcy.length → i < bcx.length →
        ((|bcy.getD j 0 - muy| ≤ skip_sigmas * sy ∧
          |bcx.getD i 0 - mux| ≤ skip_sigmas * sx) →
          m' j i = m j i +
            gauss_2d_pdf (bcx.getD i 0) (bcy.getD j 0) mux muy sx sy amp false ∧
          me' j i = me j i +
            gauss_2d_pdf (bcx.getD i 0) (bcy.getD j 0) mux muy sx sy (ampErr ^ 2) false) ∧
        (¬(|bcy.getD j 0 - muy| ≤ skip_sigmas * sy ∧
           |bcx.getD i 0 - mux| ≤ skip_sigmas * sx) →
          m' j i = m j i ∧ me' j i = me j i) := by
  refine ⟨(gauss_kernel_add m me amp ampErr bcx bcy mux muy sx sy false skip_sigmas).1,
          (gauss_kernel_add m me amp ampErr bcx bcy mux muy sx sy false skip_sigmas).2,
          ?_, ?_⟩
  · unfold apply_gauss_2d_kernel
    rw [if_neg (not_lt.mpr h3)]
  · intro j i hj hi
    refine ⟨fun hcond => ⟨?_, ?_⟩, fun hcond => ⟨?_, ?_⟩⟩ <;>
      simp only [gauss_kernel_add]
    · rw [if_pos ⟨hj, hi, hcond.1, hcond.2⟩]
    · rw [if_pos ⟨hj, hi, hcond.1, hcond.2⟩]
    · rw [if_neg fun h => hcond ⟨h.2.2.1, h.2.2.2⟩, add_zero]
    · rw [if_neg fun h => hcond ⟨h.2.2.1, h.2.2.2⟩, add_zero]

/-- Witness for C3 at a concrete input with `skip_sigmas = 3`. -/
theorem C3_witness :
    ∃ m' me',
      apply_gauss_2d_kernel zeroGrid zeroGrid 1 1 [0] [0] 0 0 1 1 false 3 =
        .ok (m', me') ∧
      ∀ j i, j < ([0] : List ℝ).length → i < ([0] : List ℝ).length →
        ((|([0] : List ℝ).getD j 0 - 0| ≤ 3 * 1 ∧
          |([0] : List ℝ).getD i 0 - 0| ≤ 3 * 1) →
          m' j i = zeroGrid j i +
            gauss_2d_pdf (([0] : List ℝ).getD i 0) (([0] : List ℝ).getD j 0) 0 0 1 1 1 false ∧
          me' j i = zeroGrid j i +
            gauss_2d_pdf (([0] : List ℝ).getD i 0) (([0] : List ℝ).getD j 0) 0 0 1 1 (1 ^ 2) false) ∧
        (¬(|([0] : List ℝ).getD j 0 - 0| ≤ 3 * 1 ∧
           |([0] : List ℝ).getD i 0 - 0| ≤ 3 * 1) →
          m' j i = zeroGrid j i ∧ me' j i = zeroGrid j i) :=
  C3_kernel_deposition zeroGrid zeroGrid 1 1 [0] [0] 0 0 1 1 3 (by norm_num)

/-- C7: `generate_fluence_map` is exactly the row loop followed by a single
finalization: the returned value map is 100× the accumulated grid, the
returned error map is 100× the element-wise square root of the accumulated
variance grid, and nothing is deposited after (nor scaled twice). -/
theorem C7_finalize_once (beam_data : List BeamSample) (scan_data : List RowRecord)
    (irrad_data : IrradData ℝ) (bins : ℕ × ℕ) :
    generate_fluence_map beam_data scan_data irrad_data bins =
      (processRows beam_data (envOf irrad_data bins) scan_data
          (initState irrad_data bins)).map
        (fun res => (fun j i => 100 * res.fl j i,
                     fun j i => 100 * Real.sqrt (res.fe j i),
                     (envOf irrad_data bins).map_bin_centers_x,
                     (envOf irrad_data bins).map_bin_centers_y)) := by
  unfold generate_fluence_map
  cases h : processRows beam_data (envOf irrad_data bins) scan_data
      (initState irrad_data bins) <;>
    simp [h, Except.map, Except.bind]

/-- C10: when both `irrad_data` and an explicit `dut_rectangle` are supplied,
the extraction rectangle is derived from the irrad-data DUT/scan-area fields
and the supplied rectangle (and `center_symm`) is ignored entirely. -/
theorem C10_irrad_data_priority (m : List (List ℚ)) (cx cy : List ℚ)
    (ir : IrradData ℚ) (dr : Option (List ℚ)) (cs : Bool) :
    extract_dut_map m cx cy (some ir) dr cs = extract_dut_map m cx cy (some ir) none cs ∧
    ∀ sax say, dut_rect_resolved sax say (some ir) dr cs =
      .ok [ir.dut_rect_start_x - ir.scan_area_start_x,
           ir.dut_rect_start_y - ir.scan_area_start_y,
           ir.dut_rect_stop_x - ir.scan_area_start_x,
           ir.dut_rect_stop_y - ir.scan_area_start_y] := by
  exact ⟨rfl, fun _ _ => rfl⟩

/-- C9 (failing input): with `center_symm = False` a `dut_rectangle` of arity
3 must, per the claim (and the function's own docstring and the dead arity
check on line 161), raise `InvalidParameter`; the code instead applies the
centered-width transform, reading only the first two entries, and happily
returns a crop.  The second conjunct records the arity mismatch. -/
theorem C9_arity_check_unreachable :
    extract_dut_map [[1, 2], [3, 4]] [1/2, 3/2] [1/2, 3/2] none (some [1, 1, 5]) false =
      .ok ([[4]], [3/2], [3/2]) ∧ (([1, 1, 5] : List ℚ).length ≠ 4) := by
  constructor
  · norm_num [extract_dut_map, dut_rect_resolved, get_dut_rect, linspace, searchsortedL,
      searchsortedR, List.range_succ, Except.bind, bind, pure, Except.pure]
  · decide

/-- C1 (counterexample): in the irrad-data mode with the rectangle
(1/5, 1/5, 6/5, 6/5) on a 2×2 map with bin centers 1/2 and 3/2 the extractor
returns the center 3/2, which lies outside the requested rectangle
(3/2 > 6/5): the returned centers do NOT all lie inside the rectangle. -/
theorem C1_counterexample :
    extract_dut_map [[1, 2], [3, 4]] [1/2, 3/2] [1/2, 3/2]
        (some ⟨0, 0, 0, 0, 0, 2, 2, 1/5, 1/5, 6/5, 6/5⟩) none false =
      .ok ([[4]], [3/2], [3/2]) ∧ ¬((3 : ℚ)/2 ≤ 6/5) := by
  constructor
  · norm_num [extract_dut_map, dut_rect_resolved, get_dut_rect, linspace, searchsortedL,
      searchsortedR, List.range_succ, Except.bind, bind, pure, Except.pure]
  · norm_num

/-- C1 (amended): for a fluence map with uniformly spaced bin centers (the
only kind `generate_fluence_map` produces) and a successfully resolved
rectangle `r = (x_min, y_min, x_max, y_max)` (which is the requested
rectangle in the irrad-data and centered modes), every returned bin center
lies strictly above the rectangle's minimum and at most half a bin width
above its maximum on each axis — equivalently, each returned bin's left edge
lies inside the rectangle — and the cropped grid's shape equals (number of
returned y centers, number of returned x centers). -/
theorem C1_extract_region_bounds
    (m : List (List ℚ)) (wx wy : ℚ) (nx ny : ℕ) (cx cy : List ℚ)
    (ir : Option (IrradData ℚ)) (dr : Option (List ℚ)) (cs : Bool)
    (hwx : 0 < wx) (hwy : 0 < wy) (hnx : 2 ≤ nx) (hny : 2 ≤ ny)
    (hcx : cx = (List.range nx).map fun (i : ℕ) => (2 * (i : ℚ) + 1) * wx / 2)
    (hcy : cy = (List.range ny).map fun (i : ℕ) => (2 * (i : ℚ) + 1) * wy / 2)
    (hm : m.length = ny) (hrows : ∀ row ∈ m, row.length = nx)
    (res : List (List ℚ) × List ℚ × List ℚ) (r : List ℚ)
    (hres : extract_dut_map m cx cy ir dr cs = .ok res)
    (hr : dut_rect_resolved (nx * wx) (ny * wy) ir dr cs = .ok r) :
    (res.1.length = res.2.2.length ∧ ∀ row ∈ res.1, row.length = res.2.1.length) ∧
    (∀ c ∈ res.2.1, r.getD 0 0 < c ∧ c ≤ r.getD 2 0 + wx / 2) ∧
    (∀ c ∈ res.2.2, r.getD 1 0 < c ∧ c ≤ r.getD 3 0 + wy / 2) := by
  have hlcx : cx.length = nx := by rw [hcx]; simp
  have hlcy : cy.length = ny := by rw [hcy]; simp
  have hcxg : ∀ i, i < nx → cx.getD i 0 = (2 * (i : ℚ) + 1) * wx / 2 := by
    intro i hi
    rw [hcx]
    simp [List.getD_eq_getElem?_getD, List.getElem?_map, List.getElem?_range hi]
  have hcyg : ∀ i, i < ny → cy.getD i 0 = (2 * (i : ℚ) + 1) * wy / 2 := by
    intro i hi
    rw [hcy]
    simp [List.getD_eq_getElem?_getD, List.getElem?_map, List.getElem?_range hi]
  have hsax : cx.getD (nx - 1) 0 + (cx.getD 1 0 - cx.getD 0 0) / 2 = nx * wx := by
    rw [hcxg (nx - 1) (by omega), hcxg 1 (by omega), hcxg 0 (by omega),
      Nat.cast_sub (show 1 ≤ nx by omega)]
    push_cast
    ring
  have hsay : cy.getD (ny - 1) 0 + (cy.getD 1 0 - cy.getD 0 0) / 2 = ny * wy := by
    rw [hcyg (ny - 1) (by omega), hcyg 1 (by omega), hcyg 0 (by omega),
      Nat.cast_sub (show 1 ≤ ny by omega)]
    push_cast
    ring
  simp only [extract_dut_map] at hres
  rw [hlcx, hlcy, hsax, hsay, except_bind_ok_iff] at hres
  obtain ⟨r2, hr2, hp⟩ := hres
  rw [hr] at hr2
  have hrr : r = r2 := Except.ok.inj hr2
  subst hrr
  have hr4 : r.length = 4 := dut_rect_resolved_length _ _ _ _ _ _ hr
  have hredge : ∀ (w : ℚ) (n : ℕ), 0 < w → 2 ≤ n →
      ∀ k, k < n + 1 → (linspace 0 ((n : ℚ) * w) (n + 1)).getD k 0 = (k : ℚ) * w := by
    intro w n hw hn k hk
    rw [linspace_getD 0 ((n : ℚ) * w) (n + 1) k hk]
    have hcast : ((n + 1 - 1 : ℕ) : ℚ) = (n : ℚ) := by norm_num
    rw [hcast]
    have hne : (n : ℚ) ≠ 0 := by
      have : (0 : ℚ) < (n : ℚ) := by exact_mod_cast (by omega : 0 < n)
      linarith
    field_simp
    ring
  have hinj := Except.ok.inj hp
  subst hinj
  simp only [hr4, show (4 : ℕ) - 2 = 2 from rfl, show (4 : ℕ) - 1 = 3 from rfl]
  refine ⟨⟨?_, ?_⟩, ?_, ?_⟩
  · simp only [List.length_map, List.length_take, List.length_drop, hm, hlcy]
  · intro row hrow
    obtain ⟨row0, hrow0, rfl⟩ := List.mem_map.mp hrow
    have hrow0m : row0 ∈ m := List.mem_of_mem_drop (List.mem_of_mem_take hrow0)
    simp only [List.length_take, List.length_drop, hrows row0 hrow0m, hlcx]
  · intro c hc
    obtain ⟨i, hlo, hup, hilen, hgot⟩ := mem_take_drop_getD cx _ _ c 0 hc
    rw [hlcx] at hilen
    rw [hcxg i hilen] at hgot
    have hellen : (linspace 0 ((nx : ℚ) * wx) (nx + 1)).length = nx + 1 :=
      linspace_length _ _ _
    have hihi : i < searchsortedR (linspace 0 ((nx : ℚ) * wx) (nx + 1)) (r.getD 2 0) := by
      omega
    have hup2 : (linspace 0 ((nx : ℚ) * wx) (nx + 1)).getD i 0 ≤ r.getD 2 0 :=
      searchsortedR_getD_le _ _ _ i hihi
    rw [hredge wx nx hwx hnx i (by omega)] at hup2
    have hlolt : searchsortedL (linspace 0 ((nx : ℚ) * wx) (nx + 1)) (r.getD 0 0) <
        (linspace 0 ((nx : ℚ) * wx) (nx + 1)).length := by
      rw [hellen]; omega
    have hlo2 := le_getD_searchsortedL (linspace 0 ((nx : ℚ) * wx) (nx + 1))
      (r.getD 0 0) 0 hlolt
    rw [hredge wx nx hwx hnx _ (by omega)] at hlo2
    have hmono : ((searchsortedL (linspace 0 ((nx : ℚ) * wx) (nx + 1)) (r.getD 0 0) : ℕ) : ℚ) *
        wx ≤ (i : ℚ) * wx := by
      have hcast : ((searchsortedL (linspace 0 ((nx : ℚ) * wx) (nx + 1)) (r.getD 0 0) : ℕ) : ℚ) ≤
          (i : ℚ) := by exact_mod_cast hlo
      exact mul_le_mul_of_nonneg_right hcast (le_of_lt hwx)
    have hcval : c = (i : ℚ) * wx + wx / 2 := by rw [← hgot]; ring
    constructor
    · rw [hcval]; linarith
    · rw [hcval]; linarith
  · intro c hc
    obtain ⟨i, hlo, hup, hilen, hgot⟩ := mem_take_drop_getD cy _ _ c 0 hc
    rw [hlcy] at hilen
    rw [hcyg i hilen] at hgot
    have hellen : (linspace 0 ((ny : ℚ) * wy) (ny + 1)).length = ny + 1 :=
      linspace_length _ _ _
    have hihi : i < searchsortedR (linspace 0 ((ny : ℚ) * wy) (ny + 1)) (r.getD 3 0) := by
      omega
    have hup2 : (linspace 0 ((ny : ℚ) * wy) (ny + 1)).getD i 0 ≤ r.getD 3 0 :=
      searchsortedR_getD_le _ _ _ i hihi
    rw [hredge wy ny hwy hny i (by omega)] at hup2
    have hlolt : searchsortedL (linspace 0 ((ny : ℚ) * wy) (ny + 1)) (r.getD 1 0) <
        (linspace 0 ((ny : ℚ) * wy) (ny + 1)).length := by
      rw [hellen]; omega
    have hlo2 := le_getD_searchsortedL (linspace 0 ((ny : ℚ) * wy) (ny + 1))
      (r.getD 1 0) 0 hlolt
    rw [hredge wy ny hwy hny _ (by omega)] at hlo2
    have hmono : ((searchsortedL (linspace 0 ((ny : ℚ) * wy) (ny + 1)) (r.getD 1 0) : ℕ) : ℚ) *
        wy ≤ (i : ℚ) * wy := by
      have hcast : ((searchsortedL (linspace 0 ((ny : ℚ) * wy) (ny + 1)) (r.getD 1 0) : ℕ) : ℚ) ≤
          (i : ℚ) := by exact_mod_cast hlo
      exact mul_le_mul_of_nonneg_right hcast (le_of_lt hwy)
    have hcval : c = (i : ℚ) * wy + wy / 2 := by rw [← hgot]; ring
    constructor
    · rw [hcval]; linarith
    · rw [hcval]; linarith

/-- Witness for C1 (amended) on the 2×2 map of the counterexample: the
out-of-rectangle center 3/2 does satisfy the amended bound 6/5 + 1/2. -/
theorem C1_witness :
    extract_dut_map [[1, 2], [3, 4]] [1/2, 3/2] [1/2, 3/2]
        (some ⟨0, 0, 0, 0, 0, 2, 2, 1/5, 1/5, 6/5, 6/5⟩) none false =
      .ok ([[4]], [3/2], [3/2]) ∧
    dut_rect_resolved (((2 : ℕ) : ℚ) * 1) (((2 : ℕ) : ℚ) * 1)
        (some ⟨0, 0, 0, 0, 0, 2, 2, 1/5, 1/5, 6/5, 6/5⟩) none false =
      .ok [1/5, 1/5, 6/5, 6/5] ∧
    ((([[4]] : List (List ℚ)).length = ([3/2] : List ℚ).length ∧
      ∀ row ∈ ([[4]] : List (List ℚ)), row.length = ([3/2] : List ℚ).length) ∧
     (∀ c ∈ ([3/2] : List ℚ),
        ([1/5, 1/5, 6/5, 6/5] : List ℚ).getD 0 0 < c ∧
        c ≤ ([1/5, 1/5, 6/5, 6/5] : List ℚ).getD 2 0 + 1 / 2) ∧
     (∀ c ∈ ([3/2] : List ℚ),
        ([1/5, 1/5, 6/5, 6/5] : List ℚ).getD 1 0 < c ∧
        c ≤ ([1/5, 1/5, 6/5, 6/5] : List ℚ).getD 3 0 + 1 / 2)) := by
  refine ⟨?_, ?_, ?_⟩
  · norm_num [extract_dut_map, dut_rect_resolved, get_dut_rect, linspace, searchsortedL,
      searchsortedR, List.range_succ, Except.bind, bind, pure, Except.pure]
  · norm_num [dut_rect_resolved]
  · exact C1_extract_region_bounds [[1, 2], [3, 4]] 1 1 2 2 [1/2, 3/2] [1/2, 3/2]
      (some ⟨0, 0, 0, 0, 0, 2, 2, 1/5, 1/5, 6/5, 6/5⟩) none false
      (by norm_num) (by norm_num) (by norm_num) (by norm_num)
      (by norm_num [List.range_succ]) (by norm_num [List.range_succ])
      rfl
      (by
        intro row hrow
        simp only [List.mem_cons, List.not_mem_nil, or_false] at hrow
        rcases hrow with rfl | rfl <;> rfl)
      ([[4]], [3/2], [3/2]) [1/5, 1/5, 6/5, 6/5]
      (by norm_num [extract_dut_map, dut_rect_resolved, get_dut_rect, linspace,
        searchsortedL, searchsortedR, List.range_succ, Except.bind, bind, pure, Except.pure])
      (by norm_num [dut_rect_resolved])

/-- C2: within a reconstruction run started at cursor 0, the wait
(turnaround) pass of row `k` runs if and only if `k` is not the first row and
the wait slice is non-empty (the cursor is positive exactly from the second
row on, because every successfully processed row consumes at least one beam
sample); when it is skipped, the grids receive contributions only from the
row-scan pass, and when it runs, the row-scan pass acts on the wait pass's
output. -/
theorem C2_wait_pass_condition (beam_data : List BeamSample) (env : ScanEnv)
    (rows : List RowRecord) (st0 : RecoState) (hcur : st0.cursor = 0)
    (k : ℕ) (hk : k < rows.length) (stk : RecoState)
    (hpre : processRows beam_data env (rows.take k) st0 = .ok stk) :
    ((0 < stk.cursor ∧ waitSliceOf beam_data stk.cursor (rows.getD k default) ≠ []) ↔
      (k ≠ 0 ∧ waitSliceOf beam_data stk.cursor (rows.getD k default) ≠ [])) ∧
    (¬(0 < stk.cursor ∧ waitSliceOf beam_data stk.cursor (rows.getD k default) ≠ []) →
      _process_row (rows.getD k default) beam_data stk env =
        (_process_row_scan (rows.getD k default)
            (rowSliceOf beam_data stk.cursor (rows.getD k default))
            stk.fl stk.fe stk.ttbuf env).map
          (fun res => ⟨res.1.1, res.1.2, res.2,
            stk.cursor + rowStopIdxOf beam_data stk.cursor (rows.getD k default)⟩)) ∧
    ((0 < stk.cursor ∧ waitSliceOf beam_data stk.cursor (rows.getD k default) ≠ []) →
      _process_row (rows.getD k default) beam_data stk env =
        _process_row_wait (rows.getD k default)
            (waitSliceOf beam_data stk.cursor (rows.getD k default)) stk.fl stk.fe env >>=
          fun grids => (_process_row_scan (rows.getD k default)
              (rowSliceOf beam_data stk.cursor (rows.getD k default))
              grids.1 grids.2 stk.ttbuf env).map
            (fun res => ⟨res.1.1, res.1.2, res.2,
              stk.cursor + rowStopIdxOf beam_data stk.cursor (rows.getD k default)⟩)) := by
  refine ⟨⟨fun h => ⟨?_, h.2⟩, fun h => ⟨?_, h.2⟩⟩, ?_, ?_⟩
  · intro hk0
    subst hk0
    rw [List.take_zero] at hpre
    have : st0 = stk := by
      cases hpre
      rfl
    rw [← this, hcur] at h
    exact absurd h.1 (lt_irrefl 0)
  · refine processRows_cursor_pos beam_data env (rows.take k) ?_ st0 stk hpre
    intro hnil
    rcases List.take_eq_nil_iff.mp hnil with h0 | h0
    · exact h.1 h0
    · rw [h0] at hk
      exact absurd hk (by simp)
  · intro hskip
    unfold _process_row
    simp only [bindOk]
    by_cases hc : 0 < stk.cursor
    · have hw : waitSliceOf beam_data stk.cursor (rows.getD k default) = [] := by
        by_contra hw
        exact hskip ⟨hc, hw⟩
      rw [if_pos hc, if_neg (by rw [hw]; simp)]
      exact except_bind_pure_eq_map _ _
    · rw [if_neg hc]
      exact except_bind_pure_eq_map _ _
  · intro hrun
    unfold _process_row
    simp only [bindOk]
    rw [if_pos hrun.1, if_pos (by simpa [List.length_pos] using hrun.2)]
    cases hW : _process_row_wait (rows.getD k default)
        (waitSliceOf beam_data stk.cursor (rows.getD k default)) stk.fl stk.fe env with
    | error e => rfl
    | ok grids =>
        rw [bindOk, bindOk]
        exact except_bind_pure_eq_map _ _

/-- Witness for C2 at the first row (`k = 0`) of a one-row sequence. -/
theorem C2_witness :
    (⟨zeroGrid, zeroGrid, [], 0⟩ : RecoState).cursor = 0 ∧
    0 < ([default] : List RowRecord).length ∧
    processRows [] ⟨[], [], [], 0, 0, 0, 0, 0⟩ (([default] : List RowRecord).take 0)
      ⟨zeroGrid, zeroGrid, [], 0⟩ = .ok ⟨zeroGrid, zeroGrid, [], 0⟩ ∧
    (((0 < (⟨zeroGrid, zeroGrid, [], 0⟩ : RecoState).cursor ∧
        waitSliceOf [] (⟨zeroGrid, zeroGrid, [], 0⟩ : RecoState).cursor
          (([default] : List RowRecord).getD 0 default) ≠ []) ↔
      ((0 : ℕ) ≠ 0 ∧
        waitSliceOf [] (⟨zeroGrid, zeroGrid, [], 0⟩ : RecoState).cursor
          (([default] : List RowRecord).getD 0 default) ≠ [])) ∧
    (¬(0 < (⟨zeroGrid, zeroGrid, [], 0⟩ : RecoState).cursor ∧
        waitSliceOf [] (⟨zeroGrid, zeroGrid, [], 0⟩ : RecoState).cursor
          (([default] : List RowRecord).getD 0 default) ≠ []) →
      _process_row (([default] : List RowRecord).getD 0 default) []
          ⟨zeroGrid, zeroGrid, [], 0⟩ ⟨[], [], [], 0, 0, 0, 0, 0⟩ =
        (_process_row_scan (([default] : List RowRecord).getD 0 default)
            (rowSliceOf [] (⟨zeroGrid, zeroGrid, [], 0⟩ : RecoState).cursor
              (([default] : List RowRecord).getD 0 default))
            (⟨zeroGrid, zeroGrid, [], 0⟩ : RecoState).fl
            (⟨zeroGrid, zeroGrid, [], 0⟩ : RecoState).fe
            (⟨zeroGrid, zeroGrid, [], 0⟩ : RecoState).ttbuf
            ⟨[], [], [], 0, 0, 0, 0, 0⟩).map
          (fun res => ⟨res.1.1, res.1.2, res.2,
            (⟨zeroGrid, zeroGrid, [], 0⟩ : RecoState).cursor +
              rowStopIdxOf [] (⟨zeroGrid, zeroGrid, [], 0⟩ : RecoState).cursor
                (([default] : List RowRecord).getD 0 default)⟩)) ∧
    ((0 < (⟨zeroGrid, zeroGrid, [], 0⟩ : RecoState).cursor ∧
        waitSliceOf [] (⟨zeroGrid, zeroGrid, [], 0⟩ : RecoState).cursor
          (([default] : List RowRecord).getD 0 default) ≠ []) →
      _process_row (([default] : List RowRecord).getD 0 default) []
          ⟨zeroGrid, zeroGrid, [], 0⟩ ⟨[], [], [], 0, 0, 0, 0, 0⟩ =
        _process_row_wait (([default] : List RowRecord).getD 0 default)
            (waitSliceOf [] (⟨zeroGrid, zeroGrid, [], 0⟩ : RecoState).cursor
              (([default] : List RowRecord).getD 0 default))
            (⟨zeroGrid, zeroGrid, [], 0⟩ : RecoState).fl
            (⟨zeroGrid, zeroGrid, [], 0⟩ : RecoState).fe
            ⟨[], [], [], 0, 0, 0, 0, 0⟩ >>=
          fun grids => (_process_row_scan (([default] : List RowRecord).getD 0 default)
              (rowSliceOf [] (⟨zeroGrid, zeroGrid, [], 0⟩ : RecoState).cursor
                (([default] : List RowRecord).getD 0 default))
              grids.1 grids.2 (⟨zeroGrid, zeroGrid, [], 0⟩ : RecoState).ttbuf
              ⟨[], [], [], 0, 0, 0, 0, 0⟩).map
            (fun res => ⟨res.1.1, res.1.2, res.2,
              (⟨zeroGrid, zeroGrid, [], 0⟩ : RecoState).cursor +
                rowStopIdxOf [] (⟨zeroGrid, zeroGrid, [], 0⟩ : RecoState).cursor
                  (([default] : List RowRecord).getD 0 default)⟩))) :=
  ⟨rfl, by norm_num, rfl,
    C2_wait_pass_condition [] ⟨[], [], [], 0, 0, 0, 0, 0⟩ [default]
      ⟨zeroGrid, zeroGrid, [], 0⟩ rfl 0 (by norm_num) ⟨zeroGrid, zeroGrid, [], 0⟩ rfl⟩

/-- C5 (counterexample): with the strictly increasing edges `[1, 3]`,
`scan_speed = 1` and `scan_accel = 1` the acceleration distance is
`d = 1/2 ≤ edges[0]`, so `idx = 0` and the python slice `[idx:-idx] = [0:-0]`
is empty: the function writes nothing at all, and the single interior bin
keeps the buffer's stale value `0` instead of the claimed
`bin_width / scan_speed = 2`. -/
theorem C5_counterexample :
    _calc_bin_transit_times [0] [1, 3] 1 1 = [0] ∧
    searchsortedL ([1, 3] : List ℝ) ((1 : ℝ) / 2 * (1 / 1) ^ 2) = 0 ∧
    (binSizes ([1, 3] : List ℝ)).getD 0 0 / 1 = 2 ∧ ¬((0 : ℝ) = 2) := by
  refine ⟨?_, ?_, ?_, by norm_num⟩
  · norm_num [_calc_bin_transit_times, searchsortedL, sliceAssign, binSizes,
      List.range_succ, List.range_zero]
  · norm_num [searchsortedL]
  · norm_num [binSizes]

/-- C5 (amended): additionally require the acceleration distance
`d = scan_accel/2·(scan_speed/scan_accel)²` to exceed the first edge
(`idx ≥ 1`; automatic for edge arrays starting at 0, as built by
`generate_fluence_map`) and the two ramp regions to fit in the row
(`2·idx ≤ n`).  Then the output has one dwell time per bin, every interior
bin `i ∈ [idx, n−idx)` gets `bin_width/scan_speed`, and the `idx` ramp bins
at each end get `t = (sqrt(2·a·s + v0²) − v0)/a` for their own width `s` with
`v0` updated cumulatively along the leading ramp and mirrored at the trailing
ramp. -/
theorem C5_transit_times (buf edges : List ℝ) (speed accel : ℝ)
    (hsort : edges.Chain' (· < ·)) (hspeed : 0 < speed) (haccel : 0 < accel)
    (hbuf : buf.length = edges.length - 1)
    (hidx1 : 1 ≤ searchsortedL edges (accel / 2 * (speed / accel) ^ 2))
    (hidx2 : 2 * searchsortedL edges (accel / 2 * (speed / accel) ^ 2) ≤
      edges.length - 1) :
    (_calc_bin_transit_times buf edges speed accel).length = edges.length - 1 ∧
    (∀ i, searchsortedL edges (accel / 2 * (speed / accel) ^ 2) ≤ i →
      i < edges.length - 1 - searchsortedL edges (accel / 2 * (speed / accel) ^ 2) →
      (_calc_bin_transit_times buf edges speed accel).getD i 0 =
        (binSizes edges).getD i 0 / speed) ∧
    (∀ i, i < searchsortedL edges (accel / 2 * (speed / accel) ^ 2) →
      (_calc_bin_transit_times buf edges speed accel).getD i 0 =
        rampTime accel ((binSizes edges).getD i 0) (rampSpeed accel (binSizes edges) i) ∧
      (_calc_bin_transit_times buf edges speed accel).getD (edges.length - 1 - 1 - i) 0 =
        rampTime accel ((binSizes edges).getD (edges.length - 1 - 1 - i) 0)
          (rampSpeed accel (binSizes edges) i)) := by
  have hbl : (binSizes edges).length = edges.length - 1 := binSizes_length edges
  set idx := searchsortedL edges (accel / 2 * (speed / accel) ^ 2) with hidxdef
  have hcalc : _calc_bin_transit_times buf edges speed accel =
      ((List.range idx).foldl
        (rampFoldStep accel (binSizes edges) (binSizes edges).length)
        (sliceAssign buf idx
          (if idx = 0 then 0 else (binSizes edges).length - idx)
          (fun i => (binSizes edges).getD i 0 / speed), 0)).1 := rfl
  obtain ⟨hv, hl, hg⟩ := rampFold_spec accel (binSizes edges)
      (sliceAssign buf idx (if idx = 0 then 0 else (binSizes edges).length - idx)
        (fun i => (binSizes edges).getD i 0 / speed))
      (binSizes edges).length
      (by rw [sliceAssign_length, hbuf, hbl]) idx (by omega)
  have hhi : (if idx = 0 then 0 else (binSizes edges).length - idx) =
      (binSizes edges).length - idx := if_neg (by omega)
  refine ⟨?_, ?_, ?_⟩
  · rw [hcalc, hl, hbl]
  · intro i h1 h2
    rw [hcalc, hg i (by omega), if_neg (show ¬i < idx by omega),
      if_neg (show ¬(binSizes edges).length - idx ≤ i by omega),
      sliceAssign_getD _ _ _ _ _ (by omega), hhi, if_pos ⟨h1, by omega⟩]
  · intro i h
    constructor
    · rw [hcalc, hg i (by omega), if_pos h]
    · have hJ : edges.length - 1 - 1 - i = (binSizes edges).length - 1 - i := by omega
      rw [hcalc, hJ, hg ((binSizes edges).length - 1 - i) (by omega),
        if_neg (show ¬(binSizes edges).length - 1 - i < idx by omega),
        if_pos (show (binSizes edges).length - idx ≤ (binSizes edges).length - 1 - i by omega)]
      have hkk : (binSizes edges).length - 1 - ((binSizes edges).length - 1 - i) = i := by
        omega
      rw [hkk]

/-- Witness for C5 at edges `[0, 1, 2, 3, 4]`, unit speed and acceleration
(the ramp covers exactly the first and last bin). -/
theorem C5_witness :
    (([0, 1, 2, 3, 4] : List ℝ).Chain' (· < ·)) ∧
    1 ≤ searchsortedL ([0, 1, 2, 3, 4] : List ℝ) ((1 : ℝ) / 2 * (1 / 1) ^ 2) ∧
    2 * searchsortedL ([0, 1, 2, 3, 4] : List ℝ) ((1 : ℝ) / 2 * (1 / 1) ^ 2) ≤
      ([0, 1, 2, 3, 4] : List ℝ).length - 1 ∧
    ((_calc_bin_transit_times [0, 0, 0, 0] [0, 1, 2, 3, 4] 1 1).length =
        ([0, 1, 2, 3, 4] : List ℝ).length - 1 ∧
      (∀ i, searchsortedL ([0, 1, 2, 3, 4] : List ℝ) ((1 : ℝ) / 2 * (1 / 1) ^ 2) ≤ i →
        i < ([0, 1, 2, 3, 4] : List ℝ).length - 1 -
          searchsortedL ([0, 1, 2, 3, 4] : List ℝ) ((1 : ℝ) / 2 * (1 / 1) ^ 2) →
        (_calc_bin_transit_times [0, 0, 0, 0] [0, 1, 2, 3, 4] 1 1).getD i 0 =
          (binSizes ([0, 1, 2, 3, 4] : List ℝ)).getD i 0 / 1) ∧
      (∀ i, i < searchsortedL ([0, 1, 2, 3, 4] : List ℝ) ((1 : ℝ) / 2 * (1 / 1) ^ 2) →
        (_calc_bin_transit_times [0, 0, 0, 0] [0, 1, 2, 3, 4] 1 1).getD i 0 =
          rampTime 1 ((binSizes ([0, 1, 2, 3, 4] : List ℝ)).getD i 0)
            (rampSpeed 1 (binSizes ([0, 1, 2, 3, 4] : List ℝ)) i) ∧
        (_calc_bin_transit_times [0, 0, 0, 0] [0, 1, 2, 3, 4] 1 1).getD
            (([0, 1, 2, 3, 4] : List ℝ).length - 1 - 1 - i) 0 =
          rampTime 1 ((binSizes ([0, 1, 2, 3, 4] : List ℝ)).getD
              (([0, 1, 2, 3, 4] : List ℝ).length - 1 - 1 - i) 0)
            (rampSpeed 1 (binSizes ([0, 1, 2, 3, 4] : List ℝ)) i))) :=
  ⟨by norm_num [List.chain'_cons, List.chain'_singleton],
   by norm_num [searchsortedL],
   by norm_num [searchsortedL],
   C5_transit_times [0, 0, 0, 0] [0, 1, 2, 3, 4] 1 1
     (by norm_num [List.chain'_cons, List.chain'_singleton]) (by norm_num) (by norm_num)
     (by norm_num) (by norm_num [searchsortedL]) (by norm_num [searchsortedL])⟩

/-- C6: direction handling of the row-scan pass (for a scan area wider than
1 mm and a row with beam samples): a row starting within ±0.5 mm (exclusive)
of the scan-area start edge deposits in natural bin-center order, one
starting within ±0.5 mm of the stop edge deposits in reversed order, and any
other start position — in particular the scan-area midpoint — fails with
`ConsistencyError`. -/
theorem C6_direction_check (row : RowRecord) (row_beam : List BeamSample)
    (fl fe : Grid) (buf : List ℝ) (env : ScanEnv)
    (hwide : 1 < env.scan_area_stop_x - env.scan_area_start_x)
    (hbeam : row_beam ≠ []) :
    ((env.scan_area_start_x - 0.5 < row.row_start_x ∧
        row.row_start_x < env.scan_area_start_x + 0.5) →
      ∃ ions errs tts, _process_row_scan row row_beam fl fe buf env =
        .ok (row_scan_deposit env fl fe ions errs env.map_bin_centers_x
          (row.row_start_y - env.scan_y_offset), tts)) ∧
    ((env.scan_area_stop_x - 0.5 < row.row_start_x ∧
        row.row_start_x < env.scan_area_stop_x + 0.5) →
      ∃ ions errs tts, _process_row_scan row row_beam fl fe buf env =
        .ok (row_scan_deposit env fl fe ions errs env.map_bin_centers_x.reverse
          (row.row_start_y - env.scan_y_offset), tts)) ∧
    ((¬(env.scan_area_start_x - 0.5 < row.row_start_x ∧
          row.row_start_x < env.scan_area_start_x + 0.5) ∧
      ¬(env.scan_area_stop_x - 0.5 < row.row_start_x ∧
          row.row_start_x < env.scan_area_stop_x + 0.5)) →
      _process_row_scan row row_beam fl fe buf env = .error .consistencyError) ∧
    (row.row_start_x = (env.scan_area_start_x + env.scan_area_stop_x) / 2 →
      _process_row_scan row row_beam fl fe buf env = .error .consistencyError) := by
  have hxp : row_beam.map (·.timestamp) ≠ [] := by simpa using hbeam
  have herr : ∀ _ : ¬(env.scan_area_start_x - 0.5 < row.row_start_x ∧
        row.row_start_x < env.scan_area_start_x + 0.5),
      ∀ _ : ¬(env.scan_area_stop_x - 0.5 < row.row_start_x ∧
        row.row_start_x < env.scan_area_stop_x + 0.5),
      _process_row_scan row row_beam fl fe buf env = .error .consistencyError := by
    intro h1 h2
    unfold _process_row_scan chooseDirection
    simp only [npInterp_ok _ _ _ hxp, if_neg h1, if_neg h2, bindOk, bindError]
  refine ⟨?_, ?_, ?_, ?_⟩
  · intro hs
    unfold _process_row_scan chooseDirection
    simp only [npInterp_ok _ _ _ hxp, if_pos hs, bindOk]
    exact ⟨_, _, _, rfl⟩
  · intro hp
    have h1 : ¬(env.scan_area_start_x - 0.5 < row.row_start_x ∧
        row.row_start_x < env.scan_area_start_x + 0.5) := by
      intro h
      have := hp.1
      have := h.2
      norm_num at this ⊢
      linarith
    unfold _process_row_scan chooseDirection
    simp only [npInterp_ok _ _ _ hxp, if_neg h1, if_pos hp, bindOk]
    exact ⟨_, _, _, rfl⟩
  · intro h
    exact herr h.1 h.2
  · intro hm
    refine herr ?_ ?_
    · intro h
      have := h.2
      rw [hm] at this
      norm_num at this
      linarith
    · intro h
      have := h.1
      rw [hm] at this
      norm_num at this
      linarith

/-- Witness for C6 at a concrete geometry (scan area [0, 10], one sample). -/
theorem C6_witness :
    (1 : ℝ) < (⟨[0, 10], [5], [5], 1, 1, 0, 0, 10⟩ : ScanEnv).scan_area_stop_x -
      (⟨[0, 10], [5], [5], 1, 1, 0, 0, 10⟩ : ScanEnv).scan_area_start_x ∧
    ([⟨1, 1, 1⟩] : List BeamSample) ≠ [] ∧
    ((⟨[0, 10], [5], [5], 1, 1, 0, 0, 10⟩ : ScanEnv).scan_area_start_x - 0.5 <
        (⟨0, 0, 0, 2, 1, 1⟩ : RowRecord).row_start_x ∧
      (⟨0, 0, 0, 2, 1, 1⟩ : RowRecord).row_start_x <
        (⟨[0, 10], [5], [5], 1, 1, 0, 0, 10⟩ : ScanEnv).scan_area_start_x + 0.5 →
      ∃ ions errs tts,
        _process_row_scan ⟨0, 0, 0, 2, 1, 1⟩ [⟨1, 1, 1⟩] zeroGrid zeroGrid [0]
            ⟨[0, 10], [5], [5], 1, 1, 0, 0, 10⟩ =
          .ok (row_scan_deposit ⟨[0, 10], [5], [5], 1, 1, 0, 0, 10⟩ zeroGrid zeroGrid
            ions errs (⟨[0, 10], [5], [5], 1, 1, 0, 0, 10⟩ : ScanEnv).map_bin_centers_x
            ((⟨0, 0, 0, 2, 1, 1⟩ : RowRecord).row_start_y -
              (⟨[0, 10], [5], [5], 1, 1, 0, 0, 10⟩ : ScanEnv).scan_y_offset), tts)) := by
  refine ⟨by norm_num, by simp, ?_⟩
  exact (C6_direction_check ⟨0, 0, 0, 2, 1, 1⟩ [⟨1, 1, 1⟩] zeroGrid zeroGrid [0]
    ⟨[0, 10], [5], [5], 1, 1, 0, 0, 10⟩ (by norm_num) (by simp)).1

/-- C8: for a wait window that passes the edge check, `_process_row_wait`
performs exactly `n − 1` kernel depositions, one per consecutive sample pair;
deposition `i` has amplitude `current_i · (t_{i+1} − t_i) / e` and amplitude
error `sqrt((current_error_i · (t_{i+1} − t_i) / e)² + std(window currents)²)`,
the final sample contributing no interval of its own (directly from the
samples, no interpolation). -/
theorem C8_wait_integrator (row : RowRecord) (wait_beam : List BeamSample)
    (fl fe : Grid) (env : ScanEnv) (hne : wait_beam ≠ [])
    (hband : (env.scan_area_start_x - 0.5 < row.row_start_x ∧
        row.row_start_x < env.scan_area_start_x + 0.5) ∨
      (¬(env.scan_area_start_x - 0.5 < row.row_start_x ∧
          row.row_start_x < env.scan_area_start_x + 0.5) ∧
        (env.scan_area_stop_x - 0.5 < row.row_start_x ∧
          row.row_start_x < env.scan_area_stop_x + 0.5))) :
    ∃ wait_mu_x,
      _process_row_wait row wait_beam fl fe env =
        .ok ((List.range (wait_beam.length - 1)).foldl
          (wait_deposit_step env wait_beam (npStd (wait_beam.map (·.beam_current)))
            wait_mu_x (row.row_start_y - env.scan_y_offset)) (fl, fe)) ∧
      (List.range (wait_beam.length - 1)).length = wait_beam.length - 1 ∧
      wait_beam.length - 1 + 1 = wait_beam.length ∧
      ∀ g i, wait_deposit_step env wait_beam (npStd (wait_beam.map (·.beam_current)))
          wait_mu_x (row.row_start_y - env.scan_y_offset) g i =
        gauss_kernel_add g.1 g.2
          ((wait_beam.getD i default).beam_current *
            ((wait_beam.getD (i + 1) default).timestamp -
              (wait_beam.getD i default).timestamp) / elementary_charge)
          (Real.sqrt (((wait_beam.getD i default).beam_current_error *
              ((wait_beam.getD (i + 1) default).timestamp -
                (wait_beam.getD i default).timestamp) / elementary_charge) ^ 2 +
            npStd (wait_beam.map (·.beam_current)) ^ 2))
          env.map_bin_centers_x env.map_bin_centers_y wait_mu_x
          (row.row_start_y - env.scan_y_offset) env.beam_sigma_x env.beam_sigma_y
          false 6 := by
  have hlen : wait_beam.length - 1 + 1 = wait_beam.length :=
    Nat.succ_pred_eq_of_pos (List.length_pos.mpr hne)
  rcases hband with hs | ⟨h1, h2⟩
  · refine ⟨env.map_bin_edges_x.getD 0 0, ?_, by simp, hlen, fun g i => rfl⟩
    unfold _process_row_wait
    simp only [if_pos hs, bindOk]
    rfl
  · refine ⟨env.map_bin_edges_x.getD (env.map_bin_edges_x.length - 1) 0, ?_,
      by simp, hlen, fun g i => rfl⟩
    unfold _process_row_wait
    simp only [if_neg h1, if_pos h2, bindOk]
    rfl

/-- Witness for C8 with a two-sample wait window on the start edge. -/
theorem C8_witness :
    ([⟨0, 1, 1⟩, ⟨1, 2, 2⟩] : List BeamSample) ≠ [] ∧
    ∃ wait_mu_x,
      _process_row_wait ⟨0, 0, 0, 2, 1, 1⟩ [⟨0, 1, 1⟩, ⟨1, 2, 2⟩] zeroGrid zeroGrid
          ⟨[0, 10], [5], [5], 1, 1, 0, 0, 10⟩ =
        .ok ((List.range (([⟨0, 1, 1⟩, ⟨1, 2, 2⟩] : List BeamSample).length - 1)).foldl
          (wait_deposit_step ⟨[0, 10], [5], [5], 1, 1, 0, 0, 10⟩ [⟨0, 1, 1⟩, ⟨1, 2, 2⟩]
            (npStd (([⟨0, 1, 1⟩, ⟨1, 2, 2⟩] : List BeamSample).map (·.beam_current)))
            wait_mu_x ((⟨0, 0, 0, 2, 1, 1⟩ : RowRecord).row_start_y -
              (⟨[0, 10], [5], [5], 1, 1, 0, 0, 10⟩ : ScanEnv).scan_y_offset))
          (zeroGrid, zeroGrid)) ∧
      (List.range (([⟨0, 1, 1⟩, ⟨1, 2, 2⟩] : List BeamSample).length - 1)).length =
        ([⟨0, 1, 1⟩, ⟨1, 2, 2⟩] : List BeamSample).length - 1 ∧
      ([⟨0, 1, 1⟩, ⟨1, 2, 2⟩] : List BeamSample).length - 1 + 1 =
        ([⟨0, 1, 1⟩, ⟨1, 2, 2⟩] : List BeamSample).length ∧
      ∀ g i, wait_deposit_step ⟨[0, 10], [5], [5], 1, 1, 0, 0, 10⟩ [⟨0, 1, 1⟩, ⟨1, 2, 2⟩]
          (npStd (([⟨0, 1, 1⟩, ⟨1, 2, 2⟩] : List BeamSample).map (·.beam_current)))
          wait_mu_x ((⟨0, 0, 0, 2, 1, 1⟩ : RowRecord).row_start_y -
            (⟨[0, 10], [5], [5], 1, 1, 0, 0, 10⟩ : ScanEnv).scan_y_offset) g i =
        gauss_kernel_add g.1 g.2
          ((([⟨0, 1, 1⟩, ⟨1, 2, 2⟩] : List BeamSample).getD i default).beam_current *
            ((([⟨0, 1, 1⟩, ⟨1, 2, 2⟩] : List BeamSample).getD (i + 1) default).timestamp -
              (([⟨0, 1, 1⟩, ⟨1, 2, 2⟩] : List BeamSample).getD i default).timestamp) /
            elementary_charge)
          (Real.sqrt (((([⟨0, 1, 1⟩, ⟨1, 2, 2⟩] : List BeamSample).getD i default).beam_current_error *
              ((([⟨0, 1, 1⟩, ⟨1, 2, 2⟩] : List BeamSample).getD (i + 1) default).timestamp -
                (([⟨0, 1, 1⟩, ⟨1, 2, 2⟩] : List BeamSample).getD i default).timestamp) /
              elementary_charge) ^ 2 +
            npStd (([⟨0, 1, 1⟩, ⟨1, 2, 2⟩] : List BeamSample).map (·.beam_current)) ^ 2))
          (⟨[0, 10], [5], [5], 1, 1, 0, 0, 10⟩ : ScanEnv).map_bin_centers_x
          (⟨[0, 10], [5], [5], 1, 1, 0, 0, 10⟩ : ScanEnv).map_bin_centers_y wait_mu_x
          ((⟨0, 0, 0, 2, 1, 1⟩ : RowRecord).row_start_y -
            (⟨[0, 10], [5], [5], 1, 1, 0, 0, 10⟩ : ScanEnv).scan_y_offset)
          (⟨[0, 10], [5], [5], 1, 1, 0, 0, 10⟩ : ScanEnv).beam_sigma_x
          (⟨[0, 10], [5], [5], 1, 1, 0, 0, 10⟩ : ScanEnv).beam_sigma_y false 6 := by
  refine ⟨by simp, ?_⟩
  exact C8_wait_integrator ⟨0, 0, 0, 2, 1, 1⟩ [⟨0, 1, 1⟩, ⟨1, 2, 2⟩] zeroGrid zeroGrid
    ⟨[0, 10], [5], [5], 1, 1, 0, 0, 10⟩ (by simp) (Or.inl (by norm_num))

end IrradControl
